import Mathlib

/-!
Verification of the two OpenWebUI adapter modules of intelligent-rag-server:
`src/intelligent_rag_pipe.py` (variant A) and `src/openwebui_pipe.py`
(variant B).  Each module defines a `Pipe` class with a throttled status
notifier `emit_status` and a chat-turn handler `pipe` that forwards the last
message of the turn to an external RAG HTTP service and post-processes the
reply.  The embedding below translates both modules into pure Lean
functions: the wall clock (`time.time()`) is an input stream indexed by the
number of calls made so far, the event emitter is replaced by an explicit
trace of emitted events, the single outbound HTTP request is an input value
describing what `requests.post` did, and Python exceptions that escape the
`pipe` method are a `raised` result.  Time is modelled by `Rat` (Python
floats stand for real-numbered seconds here; no claim depends on binary
rounding).
-/

/-- A chat message: a Python dict `{"role": r, "content": c}`.  Both adapters
only ever read these two keys of a message. -/
structure Message where
  role : String
  content : String
deriving DecidableEq, Repr

/-- The `data` field of a status event built by `emit_status`. -/
structure StatusData where
  status : String
  level : String
  description : String
  done : Bool
deriving DecidableEq, Repr

/-- A status event sent to the `__event_emitter__` sink:
`{"type": "status", "data": {...}}`. -/
structure StatusEvent where
  type : String
  data : StatusData
deriving DecidableEq, Repr

/-- The `Valves` configuration of either adapter (pydantic model with
defaults).  `emit_interval` is seconds as a rational. -/
structure Valves where
  server_url : String
  project_id : String
  thinking_depth : Nat
  emit_interval : Rat
  enable_status_indicator : Bool
deriving DecidableEq, Repr

/-- The default `Valves()` values of both modules. -/
def defaultValves : Valves :=
  { server_url := "http://localhost:3000"
    project_id := "default"
    thinking_depth := 2
    emit_interval := 2
    enable_status_indicator := true }

/-- Mutable notifier state of a `Pipe` instance: `self.last_emit_time`
(initialised to `0` in `__init__`). -/
structure NotifierState where
  last_emit_time : Rat
deriving DecidableEq, Repr

/-- The JSON body of a 200 reply from the RAG service, as far as the
adapters read it: the optional `"answer"` and `"log"` fields.  The claims
only exercise string-valued fields, so both are modelled as strings. -/
structure RagResponse where
  answer : Option String
  log : Option String
deriving DecidableEq, Repr

/-- Outcome of calling `.json()` on the HTTP response: either a parsed body
or a raised exception whose `str` is `msg` (malformed JSON). -/
inductive JsonParse where
  | ok (r : RagResponse)
  | exn (msg : String)
deriving DecidableEq, Repr

/-- The HTTP response object as far as the adapters read it. -/
structure HttpResponse where
  status_code : Nat
  text : String
  jsonBody : JsonParse
deriving DecidableEq, Repr

/-- What the single `requests.post` call did: raised a transport exception
whose `str` is `msg`, or produced a response. -/
inductive HttpResult where
  | exn (msg : String)
  | resp (r : HttpResponse)
deriving DecidableEq, Repr

/-- A Python exception escaping the `pipe` method uncaught. -/
inductive PyError where
  | keyError (key : String)
  | unboundLocal (name : String)
deriving DecidableEq, Repr

/-- A value returned normally by `pipe`: either a plain answer string or the
dict `{"error": msg}`. -/
inductive PipeReturn where
  | answer (s : String)
  | errorDict (msg : String)
deriving DecidableEq, Repr

/-- How an invocation of `pipe` ended: a normal return or an uncaught
exception propagating to the host. -/
inductive PyResult where
  | ok (v : PipeReturn)
  | raised (e : PyError)
deriving DecidableEq, Repr

/-- The invocation environment: whether `__event_emitter__` is not `None`,
and the value `time.time()` returns on its k-th call during the
invocation (one call per `emit_status` call). -/
structure PipeEnv where
  hasEmitter : Bool
  clock : Nat → Rat

/-- Intermediate state threaded through an invocation: number of
`time.time()` calls made, notifier state, and events emitted so far. -/
structure RunState where
  tick : Nat
  notifier : NotifierState
  events : List StatusEvent

/-- The single quote character, used in Python's `str` of a `KeyError`
(e.g. `str(KeyError('answer'))` is `'answer'` surrounded by quotes). -/
def singleQuote : String := (Char.ofNat 39).toString

/-- A lowercase hexadecimal digit, for JSON `\u00XX` escapes. -/
def hexDigitChar (n : Nat) : Char :=
  if n < 10 then Char.ofNat (48 + n) else Char.ofNat (87 + n)

/-- Modelled from Python's `json` library: the escape of one character
inside a JSON string literal, as `json.dumps` emits it for ASCII input. -/
def jsonEscapeChar (c : Char) : String :=
  if c.toNat = 34 then "\\\""
  else if c.toNat = 92 then "\\\\"
  else if c.toNat = 10 then "\\n"
  else if c.toNat = 13 then "\\r"
  else if c.toNat = 9 then "\\t"
  else if c.toNat = 8 then "\\b"
  else if c.toNat = 12 then "\\f"
  else if c.toNat < 32 then
    "\\u00" ++ (hexDigitChar (c.toNat / 16)).toString ++ (hexDigitChar (c.toNat % 16)).toString
  else c.toString

/-- Modelled from Python's `json` library: `json.dumps(s, indent=2)` for a
string `s` (indentation only affects containers, so for a string this is
the quoted, escaped literal). -/
def jsonDumpsString (s : String) : String :=
  "\"" ++ String.join (s.data.map jsonEscapeChar) ++ "\""

namespace intelligent_rag_pipe

/-- `Pipe.emit_status` of `src/intelligent_rag_pipe.py` (lines 58-84) as a
pure function: given configuration, whether an emitter is present, the
stored `last_emit_time`, and `current_time = time.time()`, it returns the
new notifier state and the event sent (if any). -/
def emit_status (valves : Valves) (eventEmitter : Bool) (st : NotifierState)
    (current_time : Rat) (level : String) (message : String) (done : Bool) :
    NotifierState × Option StatusEvent :=
  if eventEmitter && valves.enable_status_indicator
      && (decide (current_time - st.last_emit_time ≥ valves.emit_interval) || done) then
    (⟨current_time⟩,
      some ⟨"status",
        ⟨if done then "complete" else "in_progress", level, message, done⟩⟩)
  else
    (st, none)

/-- One `await self.emit_status(...)` call inside `pipe`: reads the clock,
runs `emit_status`, threads the notifier state and appends the emitted
event (if any) to the trace. -/
def stepEmit (valves : Valves) (env : PipeEnv) (s : RunState)
    (level : String) (message : String) (done : Bool) : RunState :=
  let now := env.clock s.tick
  let r := emit_status valves env.hasEmitter s.notifier now level message done
  ⟨s.tick + 1, r.1, s.events ++ r.2.toList⟩

/-- Result of one invocation of variant A's `pipe`: how it ended, the final
`body["messages"]` value (`none` when the key is absent), the emitted
events in order, the number of outbound HTTP requests made, and the final
notifier state. -/
structure PipeOutcomeA where
  ret : PyResult
  messages : Option (List Message)
  events : List StatusEvent
  netCalls : Nat
  notifier : NotifierState
deriving DecidableEq, Repr

/-- `Pipe.pipe` of `src/intelligent_rag_pipe.py` (lines 86-162) as a pure
function.  `bodyMessages` is `body["messages"]` (`none` when the key is
absent, so that `body.get("messages", [])` yields `[]` but a later
`body["messages"]` raises `KeyError`).  `net` is what the single
`requests.post` call did.  Note the source's fall-through: the empty-list
branch does not return, so control reaches `return answer` with `answer`
never assigned, raising `UnboundLocalError`. -/
def pipe (valves : Valves) (env : PipeEnv) (st0 : NotifierState)
    (bodyMessages : Option (List Message)) (net : HttpResult) : PipeOutcomeA :=
  let s1 := stepEmit valves env ⟨0, st0, []⟩ "info" "Querying intelligent RAG server..." false
  let messages := bodyMessages.getD []
  match messages.getLast? with
  | some lastMsg =>
    let _question := lastMsg.content
    match net with
    | .exn e =>
      let s2 := stepEmit valves env s1 "error" ("Error during RAG query: " ++ e) true
      ⟨.ok (.errorDict e), some messages, s2.events, 1, s2.notifier⟩
    | .resp r =>
      if r.status_code = 200 then
        match r.jsonBody with
        | .exn m =>
          let s2 := stepEmit valves env s1 "error" ("Error during RAG query: " ++ m) true
          ⟨.ok (.errorDict m), some messages, s2.events, 1, s2.notifier⟩
        | .ok rag =>
          let answer := rag.answer.getD ""
          let log := rag.log.getD ""
          let msgs1 :=
            if log ≠ "" then
              messages ++ [⟨"system", "Thinking process:\n" ++ log⟩]
            else messages
          let msgs2 := msgs1 ++ [⟨"assistant", answer⟩]
          let s2 := stepEmit valves env s1 "info" "Complete" true
          ⟨.ok (.answer answer), some msgs2, s2.events, 1, s2.notifier⟩
      else
        let e := "Error: " ++ toString r.status_code ++ " - " ++ r.text
        let s2 := stepEmit valves env s1 "error" ("Error during RAG query: " ++ e) true
        ⟨.ok (.errorDict e), some messages, s2.events, 1, s2.notifier⟩
  | none =>
    let s2 := stepEmit valves env s1 "error" "No messages found in the request body" true
    match bodyMessages with
    | none =>
      ⟨.raised (.keyError "messages"), none, s2.events, 0, s2.notifier⟩
    | some l =>
      let msgs := l ++ [⟨"assistant", "No messages found in the request body"⟩]
      let s3 := stepEmit valves env s2 "info" "Complete" true
      ⟨.raised (.unboundLocal "answer"), some msgs, s3.events, 0, s3.notifier⟩

end intelligent_rag_pipe

namespace openwebui_pipe

/-- `Pipe.emit_status` of `src/openwebui_pipe.py` (lines 61-87): textually
the same method as in variant A. -/
def emit_status (valves : Valves) (eventEmitter : Bool) (st : NotifierState)
    (current_time : Rat) (level : String) (message : String) (done : Bool) :
    NotifierState × Option StatusEvent :=
  if eventEmitter && valves.enable_status_indicator
      && (decide (current_time - st.last_emit_time ≥ valves.emit_interval) || done) then
    (⟨current_time⟩,
      some ⟨"status",
        ⟨if done then "complete" else "in_progress", level, message, done⟩⟩)
  else
    (st, none)

/-- One `await self.emit_status(...)` call inside variant B's `pipe`. -/
def stepEmit (valves : Valves) (env : PipeEnv) (s : RunState)
    (level : String) (message : String) (done : Bool) : RunState :=
  let now := env.clock s.tick
  let r := emit_status valves env.hasEmitter s.notifier now level message done
  ⟨s.tick + 1, r.1, s.events ++ r.2.toList⟩

/-- The JSON body sent to `POST <server_url>/api/query` by variant B. -/
structure QueryPayload where
  projectId : String
  query : String
  thinkingDepth : Nat
  context : Option String
deriving DecidableEq, Repr

/-- The payload construction of `src/openwebui_pipe.py` lines 106-121:
`context` collects `"role: content"` lines of the prior messages
(`messages[:-1]`) whose role is `"assistant"` or `"user"`, and the
payload's `context` field is their newline join, or `None` when the list
is empty. -/
def queryPayload (valves : Valves) (question : String) (messages : List Message) :
    QueryPayload :=
  let context := messages.dropLast.filterMap fun msg =>
    if ["assistant", "user"].contains msg.role then
      some (msg.role ++ ": " ++ msg.content)
    else none
  { projectId := valves.project_id
    query := question
    thinkingDepth := valves.thinking_depth
    context := if context.isEmpty then none else some (String.intercalate "\n" context) }

/-- Result of one invocation of variant B's `pipe`; like variant A's
outcome, plus the payload of the outbound request (`none` when no request
was issued). -/
structure PipeOutcomeB where
  ret : PyResult
  messages : Option (List Message)
  events : List StatusEvent
  netCalls : Nat
  notifier : NotifierState
  payload : Option QueryPayload
deriving DecidableEq, Repr

/-- `Pipe.pipe` of `src/openwebui_pipe.py` (lines 89-173) as a pure
function.  `str(KeyError('answer'))` is the quoted key, hence the
`singleQuote`-wrapped message when the 200 body lacks `"answer"`. -/
def pipe (valves : Valves) (env : PipeEnv) (st0 : NotifierState)
    (bodyMessages : Option (List Message)) (net : HttpResult) : PipeOutcomeB :=
  let s1 := stepEmit valves env ⟨0, st0, []⟩ "info" "Calling Intelligent RAG Server..." false
  let messages := bodyMessages.getD []
  match messages.getLast? with
  | some lastMsg =>
    let payload := queryPayload valves lastMsg.content messages
    let s2 := stepEmit valves env s1 "info" "Processing query..." false
    match net with
    | .exn e =>
      let error_msg := "Error during RAG query: " ++ e
      let s3 := stepEmit valves env s2 "error" error_msg true
      ⟨.ok (.errorDict error_msg), some messages, s3.events, 1, s3.notifier, some payload⟩
    | .resp r =>
      if r.status_code = 200 then
        match r.jsonBody with
        | .exn m =>
          let error_msg := "Error during RAG query: " ++ m
          let s3 := stepEmit valves env s2 "error" error_msg true
          ⟨.ok (.errorDict error_msg), some messages, s3.events, 1, s3.notifier, some payload⟩
        | .ok rag =>
          match rag.answer with
          | none =>
            let error_msg := "Error during RAG query: " ++ singleQuote ++ "answer" ++ singleQuote
            let s3 := stepEmit valves env s2 "error" error_msg true
            ⟨.ok (.errorDict error_msg), some messages, s3.events, 1, s3.notifier, some payload⟩
          | some a =>
            let answer :=
              match rag.log with
              | some lg =>
                a ++ "\n\n```json\nReasoning:\n" ++ jsonDumpsString lg ++ "\n```"
              | none => a
            let msgs2 := messages ++ [⟨"assistant", answer⟩]
            let s3 := stepEmit valves env s2 "info" "Response generated successfully" true
            ⟨.ok (.answer answer), some msgs2, s3.events, 1, s3.notifier, some payload⟩
      else
        let e := "Error: " ++ toString r.status_code ++ " - " ++ r.text
        let error_msg := "Error during RAG query: " ++ e
        let s3 := stepEmit valves env s2 "error" error_msg true
        ⟨.ok (.errorDict error_msg), some messages, s3.events, 1, s3.notifier, some payload⟩
  | none =>
    let error_msg := "No messages found in the request body"
    let s2 := stepEmit valves env s1 "error" error_msg true
    match bodyMessages with
    | none =>
      ⟨.raised (.keyError "messages"), none, s2.events, 0, s2.notifier, none⟩
    | some l =>
      ⟨.ok (.errorDict error_msg), some (l ++ [⟨"assistant", error_msg⟩]),
        s2.events, 0, s2.notifier, none⟩

end openwebui_pipe

/-- A dispatch or response-interpretation failure of the single HTTP round
trip: a transport exception from `requests.post`, a non-200 status, or a
JSON-parse failure on a 200 response. -/
def requestFails (net : HttpResult) : Bool :=
  match net with
  | .exn _ => true
  | .resp r =>
    !(r.status_code == 200) ||
      (match r.jsonBody with
       | .exn _ => true
       | .ok _ => false)

/-- The context field as the amended claim describes it: take the prior
messages (all but the last), keep those whose role is `"assistant"` or
`"user"`, format each as a `"role: content"` line, join by newline; `null`
when no prior message survives the role filter. -/
def contextFieldSpec (messages : List Message) : Option String :=
  let prior := messages.dropLast.filter fun m => ["assistant", "user"].contains m.role
  if prior.isEmpty then none
  else some (String.intercalate "\n" (prior.map fun m => m.role ++ ": " ++ m.content))

/-- `filterMap` of an if-guarded function is `map` after `filter`. -/
theorem filterMap_guard (p : Message → Bool) (g : Message → String) (l : List Message) :
    l.filterMap (fun m => if p m then some (g m) else none) = (l.filter p).map g := by
  induction l with
  | nil => rfl
  | cons a t ih =>
    by_cases h : p a <;> simp [List.filterMap_cons, List.filter_cons, h, ih]

/-- The throttled-notifier contract of a single `emit_status`-shaped
function, proved for variant A's `emit_status` (variant B's is the same
definition, see `C10`). -/
theorem emit_status_contract_aux :
    ∀ (v : Valves) (em : Bool) (st : NotifierState) (now : Rat)
      (level message : String) (done : Bool),
      ((em = false ∨ v.enable_status_indicator = false) →
          intelligent_rag_pipe.emit_status v em st now level message done = (st, none))
    ∧ (em = true → v.enable_status_indicator = true →
        ((now - st.last_emit_time ≥ v.emit_interval ∨ done = true) →
            intelligent_rag_pipe.emit_status v em st now level message done
              = (⟨now⟩, some ⟨"status", ⟨if done then "complete" else "in_progress",
                  level, message, done⟩⟩))
          ∧ (¬(now - st.last_emit_time ≥ v.emit_interval ∨ done = true) →
              intelligent_rag_pipe.emit_status v em st now level message done
                = (st, none))) := by
  intro v em st now level message done
  refine ⟨?_, fun he hen => ⟨?_, ?_⟩⟩
  · rintro (rfl | hoff) <;> simp [intelligent_rag_pipe.emit_status, *]
  · intro hcond
    subst he
    rcases hcond with h | h <;> simp [intelligent_rag_pipe.emit_status, hen, h]
  · intro hcond
    subst he
    rw [not_or] at hcond
    obtain ⟨h1, h2⟩ := hcond
    have hd : done = false := by
      cases done
      · rfl
      · exact absurd rfl h2
    simp [intelligent_rag_pipe.emit_status, hen, hd, h1]

/-- C1: the claim says an empty message list makes the adapter return a
structured error result, append exactly one assistant message reading
"No messages found in the request body", and make no network call.
Variant B conforms, but variant A's empty-list branch never returns: after
appending the message and emitting the error status, control falls through
to the final "Complete" emission and then to `return answer` with `answer`
never assigned, raising `UnboundLocalError` instead of returning the
structured error result the claim (and the spec's step 2) requires. -/
theorem C1_variantA_empty_messages_crash :
    intelligent_rag_pipe.pipe defaultValves ⟨true, fun _ => 0⟩ ⟨0⟩ (some []) (.exn "unused")
      = ⟨.raised (.unboundLocal "answer"),
         some [⟨"assistant", "No messages found in the request body"⟩],
         [⟨"status", ⟨"complete", "error", "No messages found in the request body", true⟩⟩,
          ⟨"status", ⟨"complete", "info", "Complete", true⟩⟩],
         0, ⟨0⟩⟩
  ∧ openwebui_pipe.pipe defaultValves ⟨true, fun _ => 0⟩ ⟨0⟩ (some []) (.exn "unused")
      = ⟨.ok (.errorDict "No messages found in the request body"),
         some [⟨"assistant", "No messages found in the request body"⟩],
         [⟨"status", ⟨"complete", "error", "No messages found in the request body", true⟩⟩],
         0, ⟨0⟩, none⟩ := by
  constructor <;>
    · simp [intelligent_rag_pipe.pipe, intelligent_rag_pipe.stepEmit,
        intelligent_rag_pipe.emit_status, openwebui_pipe.pipe, openwebui_pipe.stepEmit,
        openwebui_pipe.emit_status, defaultValves]
      norm_num

/-- C2: the claim says no exception ever propagates out of `pipe` for any
input body.  It does propagate: variant A raises `UnboundLocalError` on an
empty message list (the fall-through of C1), and both variants raise
`KeyError("messages")` when the body lacks the `"messages"` key, because
the empty-list branch does `body["messages"].append(...)` after having
read the list with `body.get("messages", [])`. -/
theorem C2_exceptions_propagate_to_host :
    (intelligent_rag_pipe.pipe defaultValves ⟨true, fun _ => 0⟩ ⟨0⟩
        (some []) (.exn "unused")).ret = .raised (.unboundLocal "answer")
  ∧ (intelligent_rag_pipe.pipe defaultValves ⟨true, fun _ => 0⟩ ⟨0⟩
        none (.exn "unused")).ret = .raised (.keyError "messages")
  ∧ (openwebui_pipe.pipe defaultValves ⟨true, fun _ => 0⟩ ⟨0⟩
        none (.exn "unused")).ret = .raised (.keyError "messages") := by decide

/-- C3 counterexample: on a 500 response with body "server error", variant A
returns the error dict without the "Error during RAG query: " prefix, so
the claim's exact return value is wrong for it (the prefix appears only in
variant A's error notification). -/
theorem C3_counterexample :
    (intelligent_rag_pipe.pipe defaultValves ⟨true, fun _ => 0⟩ ⟨0⟩ (some [⟨"user", "q"⟩])
        (.resp ⟨500, "server error", .exn "parse"⟩)).ret
      = .ok (.errorDict "Error: 500 - server error")
  ∧ (intelligent_rag_pipe.pipe defaultValves ⟨true, fun _ => 0⟩ ⟨0⟩ (some [⟨"user", "q"⟩])
        (.resp ⟨500, "server error", .exn "parse"⟩)).ret
      ≠ .ok (.errorDict "Error during RAG query: Error: 500 - server error") := by decide

/-- C3 amended: on a 500 response with body "server error", variant B
returns exactly the error dict with message "Error during RAG query:
Error: 500 - server error", while variant A returns the error dict with
message "Error: 500 - server error" (the prefixed text appears only in its
error notification); neither variant appends any message, and both emit a
terminal error notification carrying the prefixed message. -/
theorem C3_amended_error_return_shapes (v : Valves) (env : PipeEnv) (st : NotifierState)
    (ms : List Message) (lastMsg : Message) (jb : JsonParse)
    (hEmit : env.hasEmitter = true) (hEn : v.enable_status_indicator = true) :
    (intelligent_rag_pipe.pipe v env st (some (ms ++ [lastMsg]))
        (.resp ⟨500, "server error", jb⟩)).ret
      = .ok (.errorDict "Error: 500 - server error")
  ∧ (intelligent_rag_pipe.pipe v env st (some (ms ++ [lastMsg]))
        (.resp ⟨500, "server error", jb⟩)).messages = some (ms ++ [lastMsg])
  ∧ (intelligent_rag_pipe.pipe v env st (some (ms ++ [lastMsg]))
        (.resp ⟨500, "server error", jb⟩)).events.getLast?
      = some ⟨"status", ⟨"complete", "error",
          "Error during RAG query: Error: 500 - server error", true⟩⟩
  ∧ (openwebui_pipe.pipe v env st (some (ms ++ [lastMsg]))
        (.resp ⟨500, "server error", jb⟩)).ret
      = .ok (.errorDict "Error during RAG query: Error: 500 - server error")
  ∧ (openwebui_pipe.pipe v env st (some (ms ++ [lastMsg]))
        (.resp ⟨500, "server error", jb⟩)).messages = some (ms ++ [lastMsg])
  ∧ (openwebui_pipe.pipe v env st (some (ms ++ [lastMsg]))
        (.resp ⟨500, "server error", jb⟩)).events.getLast?
      = some ⟨"status", ⟨"complete", "error",
          "Error during RAG query: Error: 500 - server error", true⟩⟩ := by
  simp [intelligent_rag_pipe.pipe, intelligent_rag_pipe.stepEmit,
    intelligent_rag_pipe.emit_status, openwebui_pipe.pipe, openwebui_pipe.stepEmit,
    openwebui_pipe.emit_status, hEmit, hEn]
  exact ⟨by decide, by decide⟩

/-- C3 amended, instantiated: variant B's return value on the 500/"server
error" response, at a concrete configuration. -/
theorem C3_amended_error_return_shapes_witness :
    (⟨true, fun _ => 0⟩ : PipeEnv).hasEmitter = true
  ∧ defaultValves.enable_status_indicator = true
  ∧ (openwebui_pipe.pipe defaultValves ⟨true, fun _ => 0⟩ ⟨0⟩ (some [⟨"user", "q"⟩])
        (.resp ⟨500, "server error", .exn "parse"⟩)).ret
      = .ok (.errorDict "Error during RAG query: Error: 500 - server error") :=
  ⟨rfl, rfl,
    (C3_amended_error_return_shapes defaultValves ⟨true, fun _ => 0⟩ ⟨0⟩ []
      ⟨"user", "q"⟩ (.exn "parse") rfl rfl).2.2.2.1⟩

/-- C4 counterexample: on a 200 response whose JSON lacks the `"answer"`
field, variant A does not produce an error result: `rag_response.get
("answer", "")` silently substitutes the empty string, an assistant message
with empty content is appended, and the empty string is returned as the
answer. -/
theorem C4_counterexample :
    (intelligent_rag_pipe.pipe defaultValves ⟨true, fun _ => 0⟩ ⟨0⟩ (some [⟨"user", "q"⟩])
        (.resp ⟨200, "", .ok ⟨none, none⟩⟩)).ret = .ok (.answer "")
  ∧ (intelligent_rag_pipe.pipe defaultValves ⟨true, fun _ => 0⟩ ⟨0⟩ (some [⟨"user", "q"⟩])
        (.resp ⟨200, "", .ok ⟨none, none⟩⟩)).messages
      = some [⟨"user", "q"⟩, ⟨"assistant", ""⟩] := by decide

/-- C4 amended: only variant B treats a 200 response without `"answer"` as a
failure: the `KeyError` is caught, it returns the error dict with message
"Error during RAG query: 'answer'" (the quoted key is `str` of the
`KeyError`), appends nothing, and its last notification is the terminal
error.  Variant A substitutes the empty-string default, appends an
assistant message with empty content and returns it as a success. -/
theorem C4_amended_missing_answer (v : Valves) (env : PipeEnv) (st : NotifierState)
    (ms : List Message) (lastMsg : Message) (log : Option String) (text : String)
    (hEmit : env.hasEmitter = true) (hEn : v.enable_status_indicator = true) :
    (openwebui_pipe.pipe v env st (some (ms ++ [lastMsg]))
        (.resp ⟨200, text, .ok ⟨none, log⟩⟩)).ret
      = .ok (.errorDict ("Error during RAG query: " ++ singleQuote ++ "answer" ++ singleQuote))
  ∧ (openwebui_pipe.pipe v env st (some (ms ++ [lastMsg]))
        (.resp ⟨200, text, .ok ⟨none, log⟩⟩)).messages = some (ms ++ [lastMsg])
  ∧ (openwebui_pipe.pipe v env st (some (ms ++ [lastMsg]))
        (.resp ⟨200, text, .ok ⟨none, log⟩⟩)).events.getLast?
      = some ⟨"status", ⟨"complete", "error",
          "Error during RAG query: " ++ singleQuote ++ "answer" ++ singleQuote, true⟩⟩
  ∧ (intelligent_rag_pipe.pipe v env st (some (ms ++ [lastMsg]))
        (.resp ⟨200, text, .ok ⟨none, none⟩⟩)).ret = .ok (.answer "")
  ∧ (intelligent_rag_pipe.pipe v env st (some (ms ++ [lastMsg]))
        (.resp ⟨200, text, .ok ⟨none, none⟩⟩)).messages
      = some (ms ++ [lastMsg] ++ [⟨"assistant", ""⟩]) := by
  simp [intelligent_rag_pipe.pipe, intelligent_rag_pipe.stepEmit,
    intelligent_rag_pipe.emit_status, openwebui_pipe.pipe, openwebui_pipe.stepEmit,
    openwebui_pipe.emit_status, hEmit, hEn]

/-- C4 amended, instantiated: variant B's error dict on a 200 body without
`"answer"`, at a concrete configuration. -/
theorem C4_amended_missing_answer_witness :
    (⟨true, fun _ => 0⟩ : PipeEnv).hasEmitter = true
  ∧ defaultValves.enable_status_indicator = true
  ∧ (openwebui_pipe.pipe defaultValves ⟨true, fun _ => 0⟩ ⟨0⟩ (some [⟨"user", "q"⟩])
        (.resp ⟨200, "", .ok ⟨none, none⟩⟩)).ret
      = .ok (.errorDict ("Error during RAG query: " ++ singleQuote ++ "answer" ++ singleQuote)) :=
  ⟨rfl, rfl,
    (C4_amended_missing_answer defaultValves ⟨true, fun _ => 0⟩ ⟨0⟩ []
      ⟨"user", "q"⟩ none "" rfl rfl).1⟩

/-- C5 counterexample: on a successful invocation, variant B's one and only
(hence last) notification is the terminal info event "Response generated
successfully", not "Complete". -/
theorem C5_counterexample :
    (openwebui_pipe.pipe defaultValves ⟨true, fun _ => 0⟩ ⟨0⟩ (some [⟨"user", "q"⟩])
        (.resp ⟨200, "", .ok ⟨some "X", none⟩⟩)).events
      = [⟨"status", ⟨"complete", "info", "Response generated successfully", true⟩⟩]
  ∧ ("Response generated successfully" : String) ≠ "Complete" := by
  refine ⟨?_, by decide⟩
  simp [openwebui_pipe.pipe, openwebui_pipe.stepEmit, openwebui_pipe.emit_status,
    defaultValves]
  norm_num

/-- C5 amended: on every successful invocation (200 response whose body has
an `"answer"` field), with notifications enabled and a sink present, the
final notification is the terminal info event "Complete" in variant A but
"Response generated successfully" in variant B. -/
theorem C5_amended_final_notification (v : Valves) (env : PipeEnv) (st : NotifierState)
    (ms : List Message) (lastMsg : Message) (a text : String) (log : Option String)
    (hEmit : env.hasEmitter = true) (hEn : v.enable_status_indicator = true) :
    (intelligent_rag_pipe.pipe v env st (some (ms ++ [lastMsg]))
        (.resp ⟨200, text, .ok ⟨some a, log⟩⟩)).events.getLast?
      = some ⟨"status", ⟨"complete", "info", "Complete", true⟩⟩
  ∧ (openwebui_pipe.pipe v env st (some (ms ++ [lastMsg]))
        (.resp ⟨200, text, .ok ⟨some a, log⟩⟩)).events.getLast?
      = some ⟨"status", ⟨"complete", "info", "Response generated successfully", true⟩⟩ := by
  constructor
  · simp [intelligent_rag_pipe.pipe, intelligent_rag_pipe.stepEmit,
      intelligent_rag_pipe.emit_status, hEmit, hEn]
  · simp [openwebui_pipe.pipe, openwebui_pipe.stepEmit, openwebui_pipe.emit_status,
      hEmit, hEn]

/-- C5 amended, instantiated at a concrete successful invocation. -/
theorem C5_amended_final_notification_witness :
    (⟨true, fun _ => 0⟩ : PipeEnv).hasEmitter = true
  ∧ defaultValves.enable_status_indicator = true
  ∧ (intelligent_rag_pipe.pipe defaultValves ⟨true, fun _ => 0⟩ ⟨0⟩ (some [⟨"user", "q"⟩])
        (.resp ⟨200, "", .ok ⟨some "X", none⟩⟩)).events.getLast?
      = some ⟨"status", ⟨"complete", "info", "Complete", true⟩⟩ :=
  ⟨rfl, rfl,
    (C5_amended_final_notification defaultValves ⟨true, fun _ => 0⟩ ⟨0⟩ []
      ⟨"user", "q"⟩ "X" "" none rfl rfl).1⟩

/-- C6 counterexample: with a prior message of role "system", the claim's
"concatenation of all messages except the last" predicts the context
"system: s", but variant B's payload carries a null context, because the
source keeps only prior messages whose role is "assistant" or "user". -/
theorem C6_counterexample :
    (openwebui_pipe.queryPayload defaultValves "q"
        [⟨"system", "s"⟩, ⟨"user", "q"⟩]).context = none
  ∧ (none : Option String) ≠ some "system: s" := by decide

/-- C6 amended: in variant B the outbound payload's context field equals the
newline join of the prior messages (all but the last) whose role is
"assistant" or "user", each formatted as a "role: content" line, and is
null when no prior message has one of those roles; and the payload the
pipe sends is exactly `queryPayload` of the last message's content and the
message list. -/
theorem C6_amended_context_field :
    (∀ (v : Valves) (q : String) (msgs : List Message),
        (openwebui_pipe.queryPayload v q msgs).context = contextFieldSpec msgs)
  ∧ (∀ (v : Valves) (env : PipeEnv) (st : NotifierState) (ms : List Message)
        (lastMsg : Message) (net : HttpResult),
        (openwebui_pipe.pipe v env st (some (ms ++ [lastMsg])) net).payload
          = some (openwebui_pipe.queryPayload v lastMsg.content (ms ++ [lastMsg]))) := by
  constructor
  · intro v q msgs
    have h : (msgs.dropLast.filterMap fun msg =>
          if ["assistant", "user"].contains msg.role then
            some (msg.role ++ ": " ++ msg.content)
          else none)
        = (msgs.dropLast.filter fun m => ["assistant", "user"].contains m.role).map
            (fun m => m.role ++ ": " ++ m.content) := filterMap_guard _ _ _
    simp only [openwebui_pipe.queryPayload, contextFieldSpec]
    rw [h]
    rw [show ∀ (l : List Message), ((l.map fun m => m.role ++ ": " ++ m.content).isEmpty)
          = l.isEmpty from fun l => by cases l <;> rfl]
  · intro v env st ms lastMsg net
    cases net with
    | exn e => simp [openwebui_pipe.pipe]
    | resp r =>
      rcases r with ⟨code, text, jb⟩
      by_cases hc : code = 200
      · subst hc
        cases jb with
        | exn m => simp [openwebui_pipe.pipe]
        | ok rag =>
          rcases rag with ⟨ans, log⟩
          cases ans <;> simp [openwebui_pipe.pipe]
      · simp [openwebui_pipe.pipe, hc]

/-- C7: the throttled notifier contract holds for both variants'
`emit_status`: with no sink or notifications disabled the state is
untouched and nothing is sent; otherwise an event is sent iff the elapsed
time reaches `emit_interval` or `done` is set, the timestamp is updated to
`now` exactly on emission, and the event has the documented shape. -/
theorem C7_emit_status_contract :
    (∀ (v : Valves) (em : Bool) (st : NotifierState) (now : Rat)
      (level message : String) (done : Bool),
      ((em = false ∨ v.enable_status_indicator = false) →
          intelligent_rag_pipe.emit_status v em st now level message done = (st, none))
    ∧ (em = true → v.enable_status_indicator = true →
        ((now - st.last_emit_time ≥ v.emit_interval ∨ done = true) →
            intelligent_rag_pipe.emit_status v em st now level message done
              = (⟨now⟩, some ⟨"status", ⟨if done then "complete" else "in_progress",
                  level, message, done⟩⟩))
          ∧ (¬(now - st.last_emit_time ≥ v.emit_interval ∨ done = true) →
              intelligent_rag_pipe.emit_status v em st now level message done
                = (st, none))))
  ∧ (∀ (v : Valves) (em : Bool) (st : NotifierState) (now : Rat)
      (level message : String) (done : Bool),
      ((em = false ∨ v.enable_status_indicator = false) →
          openwebui_pipe.emit_status v em st now level message done = (st, none))
    ∧ (em = true → v.enable_status_indicator = true →
        ((now - st.last_emit_time ≥ v.emit_interval ∨ done = true) →
            openwebui_pipe.emit_status v em st now level message done
              = (⟨now⟩, some ⟨"status", ⟨if done then "complete" else "in_progress",
                  level, message, done⟩⟩))
          ∧ (¬(now - st.last_emit_time ≥ v.emit_interval ∨ done = true) →
              openwebui_pipe.emit_status v em st now level message done
                = (st, none)))) :=
  ⟨emit_status_contract_aux, emit_status_contract_aux⟩

/-- C7 instantiated: a disabled configuration sends nothing and keeps the
timestamp, and with everything enabled a terminal event is sent immediately
and the timestamp moves to `now`. -/
theorem C7_emit_status_contract_witness :
    intelligent_rag_pipe.emit_status
        ⟨"http://localhost:3000", "default", 2, 2, false⟩ true ⟨0⟩ 5 "info" "msg" true
      = (⟨0⟩, none)
  ∧ openwebui_pipe.emit_status defaultValves true ⟨0⟩ 5 "info" "msg" true
      = (⟨5⟩, some ⟨"status", ⟨"complete", "info", "msg", true⟩⟩) :=
  ⟨(C7_emit_status_contract.1 ⟨"http://localhost:3000", "default", 2, 2, false⟩
      true ⟨0⟩ 5 "info" "msg" true).1 (Or.inr rfl),
   ((C7_emit_status_contract.2 defaultValves true ⟨0⟩ 5 "info" "msg" true).2
      rfl rfl).1 (Or.inr rfl)⟩

/-- C8: on a 200 response with answer `X` and (non-empty) string log `Y`,
variant A appends a system message "Thinking process:\nY" then an
assistant message `X` and returns `X`; variant B appends one assistant
message combining `X` with the JSON-serialized log in a fenced json block
under "Reasoning:", and returns that combined string. -/
theorem C8_flavor_formatting (v : Valves) (env : PipeEnv) (st : NotifierState)
    (ms : List Message) (lastMsg : Message) (X Y text : String) (hY : Y ≠ "") :
    (intelligent_rag_pipe.pipe v env st (some (ms ++ [lastMsg]))
        (.resp ⟨200, text, .ok ⟨some X, some Y⟩⟩)).ret = .ok (.answer X)
  ∧ (intelligent_rag_pipe.pipe v env st (some (ms ++ [lastMsg]))
        (.resp ⟨200, text, .ok ⟨some X, some Y⟩⟩)).messages
      = some (ms ++ [lastMsg] ++ [⟨"system", "Thinking process:\n" ++ Y⟩, ⟨"assistant", X⟩])
  ∧ (openwebui_pipe.pipe v env st (some (ms ++ [lastMsg]))
        (.resp ⟨200, text, .ok ⟨some X, some Y⟩⟩)).ret
      = .ok (.answer (X ++ "\n\n```json\nReasoning:\n" ++ jsonDumpsString Y ++ "\n```"))
  ∧ (openwebui_pipe.pipe v env st (some (ms ++ [lastMsg]))
        (.resp ⟨200, text, .ok ⟨some X, some Y⟩⟩)).messages
      = some (ms ++ [lastMsg]
          ++ [⟨"assistant", X ++ "\n\n```json\nReasoning:\n" ++ jsonDumpsString Y ++ "\n```"⟩]) := by
  simp [intelligent_rag_pipe.pipe, openwebui_pipe.pipe, hY]

/-- C8 instantiated at `X`/`Y`: the serialized log is the quoted string, so
variant B's combined message is the claim's literal text. -/
theorem C8_flavor_formatting_witness :
    ("Y" : String) ≠ ""
  ∧ (openwebui_pipe.pipe defaultValves ⟨true, fun _ => 0⟩ ⟨0⟩ (some [⟨"user", "q"⟩])
        (.resp ⟨200, "", .ok ⟨some "X", some "Y"⟩⟩)).ret
      = .ok (.answer "X\n\n```json\nReasoning:\n\"Y\"\n```") :=
  ⟨by decide,
   by
    have h := (C8_flavor_formatting defaultValves ⟨true, fun _ => 0⟩ ⟨0⟩ []
      ⟨"user", "q"⟩ "X" "Y" "" (by decide)).2.2.1
    exact h.trans (by decide)⟩

/-- C9: when the non-empty-list invocation fails during dispatch or
response interpretation (transport exception, non-200 status, or
JSON-parse failure), neither variant appends anything: the chat-turn's
message list comes back unchanged. -/
theorem C9_no_append_on_failure (v : Valves) (env : PipeEnv) (st : NotifierState)
    (ms : List Message) (lastMsg : Message) (net : HttpResult)
    (h : requestFails net = true) :
    (intelligent_rag_pipe.pipe v env st (some (ms ++ [lastMsg])) net).messages
      = some (ms ++ [lastMsg])
  ∧ (openwebui_pipe.pipe v env st (some (ms ++ [lastMsg])) net).messages
      = some (ms ++ [lastMsg]) := by
  cases net with
  | exn e => exact ⟨by simp [intelligent_rag_pipe.pipe], by simp [openwebui_pipe.pipe]⟩
  | resp r =>
    rcases r with ⟨code, text, jb⟩
    by_cases hc : code = 200
    · subst hc
      cases jb with
      | exn m => exact ⟨by simp [intelligent_rag_pipe.pipe], by simp [openwebui_pipe.pipe]⟩
      | ok rag => simp [requestFails] at h
    · exact ⟨by simp [intelligent_rag_pipe.pipe, hc], by simp [openwebui_pipe.pipe, hc]⟩

/-- C9 instantiated at a transport failure. -/
theorem C9_no_append_on_failure_witness :
    requestFails (.exn "connection refused") = true
  ∧ (intelligent_rag_pipe.pipe defaultValves ⟨true, fun _ => 0⟩ ⟨0⟩
        (some [⟨"user", "q"⟩]) (.exn "connection refused")).messages
      = some [⟨"user", "q"⟩] :=
  ⟨by decide,
    (C9_no_append_on_failure defaultValves ⟨true, fun _ => 0⟩ ⟨0⟩ []
      ⟨"user", "q"⟩ (.exn "connection refused") (by decide)).1⟩

/-- C10: the two modules implement the throttled notifier identically: on
every configuration, stored timestamp, current time and input, the two
`emit_status` functions produce the same state and the same (optional)
event. -/
theorem C10_emit_status_identical :
    ∀ (v : Valves) (em : Bool) (st : NotifierState) (now : Rat)
      (level message : String) (done : Bool),
      intelligent_rag_pipe.emit_status v em st now level message done
        = openwebui_pipe.emit_status v em st now level message done :=
  fun _ _ _ _ _ _ _ => rfl
